import Mathlib

/-!
Shallow embedding of the `bear` request-processing core: the transactional
unit-of-work middleware (`src/bear/src/txnmw.rs`) and the authentication
middleware with its principal extractor (`src/bear/src/authmw.rs`).

Machine integers `i64` are modelled as `Int` (no overflow-relevant arithmetic
occurs in the embedded code paths), `anyhow::Result<T>` as `Except String T`
(the error payload is its message), and the per-request extension map as an
explicit record of the typed entries the code reads and writes.
-/

namespace Bear

/-- Model of `Instant` from utils.rs: `pub type Instant = i64;` -/
abbrev Instant := Int

/-- Model of `TxnState` from txnmw.rs: lifecycle states recorded in `TXN_LOG`. -/
inductive TxnState where
  | Nonexistent
  | Started
  | Committed
  | RolledBack
deriving DecidableEq, Repr

/-- Model of `ApiError` from errors.rs (the client-disclosed error enum). -/
inductive ApiError where
  | WebhookAuthentication
  | CryptoError
  | UnknownStep (s : String)
  | InvalidStepDef (s : String)
  | TooLarge
  | NotFound (s : String)
  | LockError
  | InvalidInput
  | AuthError
  | AuthError1 (s : String)
  | MissingVar
  | InvalidState (s : String)
  | InsufficientEarn
  | InsufficientLvl
  | Expired
  | UserError (s : String)
  | Any (s : String)
  | Any1 (s t : String)
  | Unauthorized
  | Disabled
deriving DecidableEq, Repr

/-- Model of `AnyHandlerError` from errors.rs wraps an `anyhow::Error`, which is either
a downcastable `ApiError` or some other error (kept as its message). -/
inductive AnyErr where
  | api (e : ApiError)
  | anyhow (msg : String)
deriving DecidableEq, Repr

/-- A transaction handle (`DbTxn` in db.rs, an sqlx `Transaction`). The handle
is opaque to the middleware; what matters is how the database layer answers
`commit`/`rollback` on it, so the model carries those answers as data. -/
structure DbTxn where
  commitRes : Except String Unit
  rollbackRes : Except String Unit
deriving Repr

/-- Model of `StatusCode::is_client_error` from the http crate (actix response status):
400..=499. -/
def is_client_error (s : Nat) : Bool := 400 ≤ s && s < 500

/-- Model of `StatusCode::is_server_error` from the http crate: 500..=599. -/
def is_server_error (s : Nat) : Bool := 500 ≤ s && s < 600

/-- The post-downstream half of `TxnMiddleware::call` (txnmw.rs lines 91-120):
given the contents of the shared transaction container after the downstream
service returned (`cont.take()`) and the downstream result (`res`, an HTTP
status on success), it commits or rolls back and produces the overall result
together with the `TxnState` entries appended to `TXN_LOG` (the code logs
`Committed`/`RolledBack` just before awaiting the finalize call, so the entry
is appended even when the finalize itself fails). A finalize failure is
wrapped by `anyhow!("SQL error on rollback/commit: {:?}", txerr)` and
propagated by `?`, replacing the original result; otherwise `Ok(res?)`
propagates the downstream result unchanged. -/
def txnMwFinalize (cont : Option DbTxn) (res : Except AnyErr Nat) :
    Except AnyErr Nat × List TxnState :=
  match cont with
  | none => (res, [])
  | some txn =>
    match res with
    | .ok r =>
      let failed := is_server_error r || is_client_error r
      if !failed then
        match txn.commitRes with
        | .ok _ => (res, [TxnState.Committed])
        | .error txerr =>
          (.error (.anyhow ("SQL error on rollback/commit: " ++ txerr)),
           [TxnState.Committed])
      else
        match txn.rollbackRes with
        | .ok _ => (res, [TxnState.RolledBack])
        | .error txerr =>
          (.error (.anyhow ("SQL error on rollback/commit: " ++ txerr)),
           [TxnState.RolledBack])
    | .error _ =>
      match txn.rollbackRes with
      | .ok _ => (res, [TxnState.RolledBack])
      | .error txerr =>
        (.error (.anyhow ("SQL error on rollback/commit: " ++ txerr)),
         [TxnState.RolledBack])

/-- The finalize operation `txnMwFinalize` performs on a present handle:
commit exactly when the result is a response that is neither a server nor a
client error, rollback otherwise (mirrors the branch structure of
txnmw.rs lines 92-106). -/
def finalizeOpResult (txn : DbTxn) (res : Except AnyErr Nat) : Except String Unit :=
  match res with
  | .ok r => if !(is_server_error r || is_client_error r) then txn.commitRes else txn.rollbackRes
  | .error _ => txn.rollbackRes

/-! ## Handle store and lazy transaction accessor (txnmw.rs 134-269) -/

/-- Observable operations the accessor performs against the database layer and
the shared per-request container (`TxnRcContainer`). -/
inductive TxnOp where
  | beginWrite                -- `db.newtx_write().await`
  | takeShared                -- `self.shared.replace(None)`
  | putShared                 -- `self.shared.set(Some(txn))`
deriving DecidableEq, Repr

/-- Model of `Switcharoo` from txnmw.rs: the shared container's contents plus the
locally cached handle. -/
structure Switcharoo where
  shared : Option DbTxn
  local? : Option DbTxn

/-- Model of `Switcharoo::get` (txnmw.rs 178-190). If no local handle is cached, it
takes the handle out of the shared cell (`replace(None).unwrap()` — `none`
here models the panic when the cell is empty) and caches it locally; then it
returns the locally cached handle. The second component is the trace of
shared-store/database operations performed. -/
def Switcharoo.get (sw : Switcharoo) : Option (DbTxn × Switcharoo) × List TxnOp :=
  match sw.local? with
  | none =>
    match sw.shared with
    | none => (none, [TxnOp.takeShared])
    | some txn => (some (txn, { shared := none, local? := some txn }), [TxnOp.takeShared])
  | some txn => (some (txn, sw), [])

/-- Model of `Switcharoo::put` (txnmw.rs 192-199) on an already-begun handle: logs
`Started` and sets the shared cell to `Some(txn)`. -/
def Switcharoo.put (sw : Switcharoo) (txn : DbTxn) : Switcharoo :=
  { sw with shared := some txn }

/-- Model of `WriteTxn::from_request` (txnmw.rs 221-238): builds a `Switcharoo` over
the request's shared container (`cont`) with an empty local slot, then always
asks the database layer for a new write transaction (`db.newtx_write()`,
whose answer is the parameter `newtx`) and `put`s it into the shared cell;
a begin failure is converted to an `Error` by `put`. -/
def WriteTxn.from_request (newtx : Except String DbTxn) (cont : Option DbTxn) :
    Except AnyErr Switcharoo × List TxnOp :=
  let sw : Switcharoo := { shared := cont, local? := none }
  match newtx with
  | .error e => (.error (.anyhow e), [TxnOp.beginWrite])
  | .ok txn => (.ok (sw.put txn), [TxnOp.beginWrite, TxnOp.putShared])

/-- Runs `n` successive `get()` calls on one accessor instance, concatenating
their operation traces; stops (with `none`) if a call panics. -/
def Switcharoo.getTrace : Switcharoo → Nat → Option Switcharoo × List TxnOp
  | sw, 0 => (some sw, [])
  | sw, n + 1 =>
    match sw.get with
    | (none, ops) => (none, ops)
    | (some (_, sw'), ops) =>
      let rest := sw'.getTrace n
      (rest.1, ops ++ rest.2)

/-- One accessor's full lifecycle trace: extraction via
`WriteTxn::from_request` followed by `n` `get()` calls by the handler. -/
def writeTxnLifecycleTrace (newtx : Except String DbTxn) (cont : Option DbTxn)
    (n : Nat) : List TxnOp :=
  match WriteTxn.from_request newtx cont with
  | (.error _, ops) => ops
  | (.ok sw, ops) => ops ++ (sw.getTrace n).2

/-! ## Authentication middleware (authmw.rs) -/

/-- Model of `Authentication` from authmw.rs: the parsed credential triple. -/
structure Authentication where
  kind : String
  id : String
  secret : String
deriving DecidableEq, Repr

/-- Model of `PrincipalInner` from authmw.rs. -/
structure PrincipalInner where
  auth_kind : String
  principal : String
  parent : Option String
deriving DecidableEq, Repr

/-- A `Session` record as described by the `Session` trait (interface.rs):
code, kind tag, expiry instant and optional email subject. -/
structure Session where
  code : String
  kind : String
  expires : Instant
  email : Option String
deriving DecidableEq, Repr

/-- Session-store operations issued through the `Session` trait primitives
(`delete`, `extend`) inside a transaction. -/
inductive StoreOp where
  | delete (code : String)
  | extend (code : String) (expires : Instant)
deriving DecidableEq, Repr

/-- Model of `use_session` (authmw.rs 96-104): with the clock at `now`, if the found
session's expiry is strictly below `now`, delete it and fail with
`ApiError::Expired`; otherwise extend its expiry to
`now + AC::S::lifetime(kind)`. The database answers to `delete`/`extend` are
the parameters `deleteRes`/`extendRes`; their failures propagate via `?`.
Returns the result together with the store operations issued. -/
def use_session (lifetime : String → Int)
    (deleteRes extendRes : Except String Unit)
    (sess : Session) (now : Instant) : Except AnyErr Unit × List StoreOp :=
  if sess.expires < now then
    match deleteRes with
    | .error e => (.error (.anyhow e), [StoreOp.delete sess.code])
    | .ok _ => (.error (.api ApiError.Expired), [StoreOp.delete sess.code])
  else
    match extendRes with
    | .error e =>
      (.error (.anyhow e), [StoreOp.extend sess.code (now + lifetime sess.kind)])
    | .ok _ =>
      (.ok (), [StoreOp.extend sess.code (now + lifetime sess.kind)])

/-- The environment an `AuthMiddleware::call` invocation runs in: whether the
app container is retrievable, whether authentication is `required` for this
route class, the parsed credential, the clock, and the database layer's
answers to the calls `verify_auth` makes (`newtx_write`, `find_session`,
`delete`, `extend`, `commit`) plus the result of `sess.as_principal()`. -/
structure AuthEnv where
  objs : Bool
  required : Bool
  auth : Option Authentication
  now : Instant
  newtxRes : Except String Unit
  findRes : Except String Session
  deleteRes : Except String Unit
  extendRes : Except String Unit
  commitRes : Except String Unit
  asPrincipalRes : Except String PrincipalInner

/-- Model of `verify_auth` (authmw.rs 107-119): with no credential, resolve no
principal; with a credential, open a write transaction, look the session up,
run `use_session`, commit the transaction, and derive the principal via
`sess.as_principal()`. Every failure propagates via `?`. Also returns the
session-store operations issued. -/
def verify_auth (lifetime : String → Int) (env : AuthEnv) :
    Except AnyErr (Option PrincipalInner) × List StoreOp :=
  match env.auth with
  | none => (.ok none, [])
  | some _ =>
    match env.newtxRes with
    | .error e => (.error (.anyhow e), [])
    | .ok _ =>
      match env.findRes with
      | .error e => (.error (.anyhow e), [])
      | .ok sess =>
        match use_session lifetime env.deleteRes env.extendRes sess env.now with
        | (.error e, ops) => (.error e, ops)
        | (.ok _, ops) =>
          match env.commitRes with
          | .error e => (.error (.anyhow e), ops)
          | .ok _ =>
            match env.asPrincipalRes with
            | .error e => (.error (.anyhow e), ops)
            | .ok p => (.ok (some p), ops)

/-- The typed request-extension entries the auth code reads and writes:
the attached `Rc<PrincipalInner>` and the `PrincipalTaken { taken }` flag
cell (absent entry = `None`). -/
structure ReqExts where
  principal : Option PrincipalInner
  ptaken : Option Bool
deriving DecidableEq, Repr

/-- The exact message of the consumption-check failure in authmw.rs line 148. -/
def notExtractedMsg : String :=
  "Principal not extracted in a handler under authenticated scope. Is your URL correct?"

/-- Outcome of one `AuthMiddleware::call`: the overall result (HTTP status on
success), whether the downstream service was invoked, and the session-store
operations issued while verifying the credential. -/
structure AuthOutcome where
  result : Except AnyErr Nat
  downstreamInvoked : Bool
  storeOps : List StoreOp

/-- Model of `AuthMiddleware::call` (authmw.rs 94-153). `service` models the
downstream stage: from the request extensions it either fails or returns a
status together with the extensions as they stand afterwards (handlers may
have flipped the taken flag via the principal extractor). The middleware:
resolves the principal with `verify_auth` (failures propagate via `?`);
attaches `(principal, taken=false)` when one resolved; short-circuits with
`AuthError1("request.not.authenticated")` when none resolved and `required`;
invokes downstream (its error propagates via `?`); finally, if a
`PrincipalTaken` entry exists and is still false, fails with the internal
`anyhow!` consumption error, else returns the downstream response. -/
def authCall (lifetime : String → Int) (env : AuthEnv)
    (service : ReqExts → Except AnyErr (Nat × ReqExts)) : AuthOutcome :=
  if !env.objs then
    { result := .error (.api (ApiError.InvalidState "objs missing"))
      downstreamInvoked := false, storeOps := [] }
  else
    match verify_auth lifetime env with
    | (.error e, ops) =>
      { result := .error e, downstreamInvoked := false, storeOps := ops }
    | (.ok principal?, ops) =>
      let exts : ReqExts :=
        match principal? with
        | some p => { principal := some p, ptaken := some false }
        | none => { principal := none, ptaken := none }
      if principal?.isNone && env.required then
        { result := .error (.api (ApiError.AuthError1 "request.not.authenticated"))
          downstreamInvoked := false, storeOps := ops }
      else
        match service exts with
        | .error e =>
          { result := .error e, downstreamInvoked := true, storeOps := ops }
        | .ok (status, exts') =>
          match exts'.ptaken with
          | some taken =>
            if !taken then
              { result := .error (.anyhow notExtractedMsg)
                downstreamInvoked := true, storeOps := ops }
            else
              { result := .ok status, downstreamInvoked := true, storeOps := ops }
          | none =>
            { result := .ok status, downstreamInvoked := true, storeOps := ops }

/-- Model of `principal_from_request` (authmw.rs 163-177): reads the attached
principal from the request extensions; fails with
`AuthError1("principal.missing")` if none is attached, with the kind-mismatch
`AuthError1` if the attached principal's `auth_kind` differs from the
expected one (both failures return before the flag is touched); on a match,
sets the `PrincipalTaken` flag to true when that entry exists and returns a
clone of the principal. Returns the result and the updated extensions. -/
def principal_from_request (exts : ReqExts) (auth_kind : String) :
    Except ApiError PrincipalInner × ReqExts :=
  match exts.principal with
  | none => (.error (ApiError.AuthError1 "principal.missing"), exts)
  | some it =>
    if it.auth_kind ≠ auth_kind then
      (.error (ApiError.AuthError1
        ("principal.kind.mismatch:a:" ++ it.auth_kind ++ "/e:" ++ auth_kind)), exts)
    else
      (.ok it, { exts with ptaken := exts.ptaken.map (fun _ => true) })

/-! ## Theorems -/

/-- Claim C1 — For every request processed by the unit-of-work middleware, on
completion of the downstream stage: if no transaction was ever begun (the
shared container is empty), the middleware performs neither commit nor
rollback; if a transaction was begun, the middleware takes the handle back
and commits it exactly when downstream returned a response whose status is
neither a client error (4xx) nor a server error (5xx), and rolls it back when
downstream returned an error or a response with status ≥ 400. (Statuses are
constrained to the standard HTTP range below 600, over which "4xx/5xx" and
"≥ 400" coincide.) -/
theorem C1_unit_of_work_commit_rollback (cont : Option DbTxn)
    (res : Except AnyErr Nat) (hvalid : ∀ s, res = Except.ok s → s < 600) :
    (cont = none → (txnMwFinalize cont res).2 = []) ∧
    (∀ txn, cont = some txn →
      (((txnMwFinalize cont res).2 = [TxnState.Committed]) ↔
        (∃ s, res = Except.ok s ∧ ¬(400 ≤ s ∧ s < 500) ∧ ¬(500 ≤ s ∧ s < 600))) ∧
      (((txnMwFinalize cont res).2 = [TxnState.RolledBack]) ↔
        ((∃ e, res = Except.error e) ∨ (∃ s, res = Except.ok s ∧ 400 ≤ s)))) := by
  constructor
  · rintro rfl
    simp [txnMwFinalize]
  · rintro txn rfl
    rcases res with e | s
    · refine ⟨?_, ?_⟩ <;>
        cases hr : txn.rollbackRes <;>
        simp only [txnMwFinalize, hr]
      · constructor
        · intro h; exact absurd h (by decide)
        · rintro ⟨s', hs', -, -⟩; exact absurd hs' (by simp)
      · constructor
        · intro h; exact absurd h (by decide)
        · rintro ⟨s', hs', -, -⟩; exact absurd hs' (by simp)
      · exact ⟨fun _ => Or.inl ⟨e, rfl⟩, fun _ => True.intro⟩
      · exact ⟨fun _ => Or.inl ⟨e, rfl⟩, fun _ => True.intro⟩
    · have hs : s < 600 := hvalid s rfl
      by_cases h4 : 400 ≤ s
      · have hf : (is_server_error s || is_client_error s) = true := by
          simp only [is_server_error, is_client_error, Bool.or_eq_true,
            Bool.and_eq_true, decide_eq_true_eq]
          omega
        refine ⟨?_, ?_⟩ <;>
          cases hr : txn.rollbackRes <;>
          simp only [txnMwFinalize, hf, Bool.not_true, Bool.false_eq_true,
            if_false, hr]
        · constructor
          · intro h; exact absurd h (by decide)
          · rintro ⟨s', hs', hc, hv⟩
            injection hs' with h'
            omega
        · constructor
          · intro h; exact absurd h (by decide)
          · rintro ⟨s', hs', hc, hv⟩
            injection hs' with h'
            omega
        · exact ⟨fun _ => Or.inr ⟨s, rfl, h4⟩, fun _ => True.intro⟩
        · exact ⟨fun _ => Or.inr ⟨s, rfl, h4⟩, fun _ => True.intro⟩
      · have hf : (is_server_error s || is_client_error s) = false := by
          simp only [is_server_error, is_client_error, Bool.or_eq_false_iff,
            Bool.and_eq_false_iff, decide_eq_false_iff_not]
          omega
        refine ⟨?_, ?_⟩ <;>
          cases hc : txn.commitRes <;>
          simp only [txnMwFinalize, hf, Bool.not_false, if_true, hc]
        · exact ⟨fun _ => ⟨s, rfl, by omega, by omega⟩, fun _ => True.intro⟩
        · exact ⟨fun _ => ⟨s, rfl, by omega, by omega⟩, fun _ => True.intro⟩
        · constructor
          · intro h; exact absurd h (by decide)
          · rintro (⟨e, he⟩ | ⟨s', hs', h4'⟩)
            · exact absurd he (by simp)
            · injection hs' with h'
              omega
        · constructor
          · intro h; exact absurd h (by decide)
          · rintro (⟨e, he⟩ | ⟨s', hs', h4'⟩)
            · exact absurd he (by simp)
            · injection hs' with h'
              omega

/-- Witness for C1 at a concrete input: a committed transaction on a 200
response. -/
theorem C1_unit_of_work_commit_rollback_witness :
    (txnMwFinalize (some ⟨Except.ok (), Except.ok ()⟩) (Except.ok 200)).2 =
      [TxnState.Committed] := by
  have h := C1_unit_of_work_commit_rollback (some ⟨Except.ok (), Except.ok ()⟩)
    (Except.ok 200) (by intro s hs; injection hs with h'; omega)
  exact (h.2 ⟨Except.ok (), Except.ok ()⟩ rfl).1.mpr ⟨200, rfl, by omega, by omega⟩

/-- Claim C2 counterexample — the claim says a session whose expiry is *at or
before* `now` is deleted with `Expired`; but at `expires = now = 0` the code
(`use_session`, which compares with strict `<`) extends the session and
succeeds instead of deleting it. -/
theorem C2_session_expiry_counterexample :
    (Session.mk "abc" "Oidc" 0 none).expires ≤ 0 ∧
    use_session (fun _ => 100) (Except.ok ()) (Except.ok ())
      (Session.mk "abc" "Oidc" 0 none) 0 =
      (Except.ok (), [StoreOp.extend "abc" 100]) ∧
    (use_session (fun _ => 100) (Except.ok ()) (Except.ok ())
      (Session.mk "abc" "Oidc" 0 none) 0).1 ≠
      Except.error (AnyErr.api ApiError.Expired) := by
  refine ⟨le_refl 0, rfl, ?_⟩
  intro h
  simp [use_session] at h

/-- Claim C2 (amended) — For every request whose credential resolves to a
session record, evaluated at clock time `now`: if the session's expiry is
*strictly before* `now`, the session is deleted and the request fails with
the `Expired` error (distinct from `AuthError`); otherwise (expiry at or
after `now`) the session's stored expiry is updated to exactly
`now + lifetime(kind)`. -/
theorem C2_session_expiry_amended (lifetime : String → Int)
    (dr er : Except String Unit) (sess : Session) (now : Instant) :
    (sess.expires < now →
      use_session lifetime (Except.ok ()) er sess now =
        (Except.error (AnyErr.api ApiError.Expired), [StoreOp.delete sess.code])) ∧
    (now ≤ sess.expires →
      use_session lifetime dr (Except.ok ()) sess now =
        (Except.ok (), [StoreOp.extend sess.code (now + lifetime sess.kind)])) ∧
    ApiError.Expired ≠ ApiError.AuthError ∧
    (∀ s, ApiError.Expired ≠ ApiError.AuthError1 s) := by
  refine ⟨?_, ?_, by simp, by simp⟩
  · intro h
    unfold use_session
    rw [if_pos h]
  · intro h
    unfold use_session
    rw [if_neg (not_lt.mpr h)]

/-- Witness for C2 (amended) at concrete inputs: an expired session
(expiry 5, clock 10) is deleted with `Expired`; a live session
(expiry 10, clock 10) is extended to `10 + 100`. -/
theorem C2_session_expiry_amended_witness :
    use_session (fun _ => 100) (Except.ok ()) (Except.ok ())
      (Session.mk "s" "Oidc" 5 none) 10 =
      (Except.error (AnyErr.api ApiError.Expired), [StoreOp.delete "s"]) ∧
    use_session (fun _ => 100) (Except.ok ()) (Except.ok ())
      (Session.mk "s" "Oidc" 10 none) 10 =
      (Except.ok (), [StoreOp.extend "s" (10 + 100)]) :=
  ⟨(C2_session_expiry_amended (fun _ => 100) (Except.ok ()) (Except.ok ())
      (Session.mk "s" "Oidc" 5 none) 10).1 (by decide),
   (C2_session_expiry_amended (fun _ => 100) (Except.ok ()) (Except.ok ())
      (Session.mk "s" "Oidc" 10 none) 10).2.1 (by decide)⟩

/-- Claim C3 — For every request in which a principal was attached and the
downstream stage returned a successful response: if no handler flipped the
consumed flag to true, the authentication middleware fails the whole request
with the internal programming-error signal (an `anyhow` error, distinct from
every `ApiError`-based auth failure), even though the handler returned
success. -/
theorem C3_consumed_flag_check (lifetime : String → Int) (env : AuthEnv)
    (service : ReqExts → Except AnyErr (Nat × ReqExts)) (p : PrincipalInner)
    (hobjs : env.objs = true)
    (hp : (verify_auth lifetime env).1 = Except.ok (some p))
    (s : Nat) (exts' : ReqExts)
    (hsvc : service { principal := some p, ptaken := some false } =
      Except.ok (s, exts'))
    (hflag : exts'.ptaken = some false) :
    (authCall lifetime env service).result =
      Except.error (AnyErr.anyhow notExtractedMsg) ∧
    (authCall lifetime env service).downstreamInvoked = true ∧
    (∀ e : ApiError, (authCall lifetime env service).result ≠
      Except.error (AnyErr.api e)) := by
  rcases hve : verify_auth lifetime env with ⟨r, ops⟩
  rw [hve] at hp
  simp only at hp
  subst hp
  have : authCall lifetime env service =
      { result := Except.error (AnyErr.anyhow notExtractedMsg),
        downstreamInvoked := true, storeOps := ops } := by
    simp [authCall, hobjs, hve, hsvc, hflag]
  rw [this]
  exact ⟨rfl, rfl, fun e h => by simp at h⟩

/-- Witness for C3 at a concrete input: a valid OIDC session resolves a
principal; the downstream service returns 200 without touching the flag; the
middleware fails the request with the internal consumption error. -/
theorem C3_consumed_flag_check_witness :
    (authCall (fun _ => 100)
      (AuthEnv.mk true true (some (Authentication.mk "Oidc" "d" "t")) 1000
        (Except.ok ()) (Except.ok (Session.mk "c" "Oidc" 2000 none))
        (Except.ok ()) (Except.ok ()) (Except.ok ())
        (Except.ok (PrincipalInner.mk "Oidc" "a@x.com" none)))
      (fun e => Except.ok (200, e))).result =
      Except.error (AnyErr.anyhow notExtractedMsg) :=
  (C3_consumed_flag_check (fun _ => 100)
    (AuthEnv.mk true true (some (Authentication.mk "Oidc" "d" "t")) 1000
      (Except.ok ()) (Except.ok (Session.mk "c" "Oidc" 2000 none))
      (Except.ok ()) (Except.ok ()) (Except.ok ())
      (Except.ok (PrincipalInner.mk "Oidc" "a@x.com" none)))
    (fun e => Except.ok (200, e)) (PrincipalInner.mk "Oidc" "a@x.com" none)
    rfl rfl 200
    (ReqExts.mk (some (PrincipalInner.mk "Oidc" "a@x.com" none)) (some false))
    rfl rfl).1

/-- Claim C4 — On a route class where authentication is required, if no
principal was resolved, the middleware returns
`AuthError1("request.not.authenticated")` without ever invoking the
downstream service. -/
theorem C4_required_short_circuit (lifetime : String → Int) (env : AuthEnv)
    (service : ReqExts → Except AnyErr (Nat × ReqExts))
    (hobjs : env.objs = true)
    (hp : (verify_auth lifetime env).1 = Except.ok none)
    (hreq : env.required = true) :
    (authCall lifetime env service).result =
      Except.error (AnyErr.api (ApiError.AuthError1 "request.not.authenticated")) ∧
    (authCall lifetime env service).downstreamInvoked = false := by
  rcases hve : verify_auth lifetime env with ⟨r, ops⟩
  rw [hve] at hp
  simp only at hp
  subst hp
  constructor <;> simp [authCall, hobjs, hve, hreq]

/-- Witness for C4 at a concrete input: no credential presented on a
required-auth route. -/
theorem C4_required_short_circuit_witness :
    (authCall (fun _ => 100)
      (AuthEnv.mk true true none 1000 (Except.ok ())
        (Except.error "no session") (Except.ok ()) (Except.ok ())
        (Except.ok ()) (Except.error "no principal"))
      (fun e => Except.ok (200, e))).downstreamInvoked = false :=
  (C4_required_short_circuit (fun _ => 100)
    (AuthEnv.mk true true none 1000 (Except.ok ())
      (Except.error "no session") (Except.ok ()) (Except.ok ())
      (Except.ok ()) (Except.error "no principal"))
    (fun e => Except.ok (200, e)) rfl rfl rfl).2

/-- Claim C5 — Principal extraction with expected kind `K`: with no attached
principal it fails with `AuthError1("principal.missing")`; with a mismatched
auth-method tag it fails with the kind-mismatch `AuthError1` naming the
actual and expected kinds and leaves the extensions (hence the consumed
flag) unchanged; with matching tags it sets the consumed flag to true and
returns a copy of the attached principal. -/
theorem C5_principal_extraction (exts : ReqExts) (K : String) :
    (exts.principal = none →
      principal_from_request exts K =
        (Except.error (ApiError.AuthError1 "principal.missing"), exts)) ∧
    (∀ p, exts.principal = some p → p.auth_kind ≠ K →
      principal_from_request exts K =
        (Except.error (ApiError.AuthError1
          ("principal.kind.mismatch:a:" ++ p.auth_kind ++ "/e:" ++ K)), exts)) ∧
    (∀ p, exts.principal = some p → p.auth_kind = K →
      (principal_from_request exts K).1 = Except.ok p ∧
      (∀ b, exts.ptaken = some b →
        (principal_from_request exts K).2.ptaken = some true)) := by
  refine ⟨?_, ?_, ?_⟩
  · intro h
    simp [principal_from_request, h]
  · intro p hp hk
    simp [principal_from_request, hp, hk]
  · intro p hp hk
    constructor
    · simp [principal_from_request, hp, hk]
    · intro b hb
      simp [principal_from_request, hp, hk, hb]

/-- Witness for C5 at concrete inputs: missing principal, mismatched kind
(`ApiKey` attached, `Oidc` expected, flag untouched), and matching kind
(flag set, principal returned). -/
theorem C5_principal_extraction_witness :
    principal_from_request (ReqExts.mk none none) "Oidc" =
      (Except.error (ApiError.AuthError1 "principal.missing"),
        ReqExts.mk none none) ∧
    principal_from_request
      (ReqExts.mk (some (PrincipalInner.mk "ApiKey" "a@x.com" none)) (some false))
      "Oidc" =
      (Except.error (ApiError.AuthError1 "principal.kind.mismatch:a:ApiKey/e:Oidc"),
        ReqExts.mk (some (PrincipalInner.mk "ApiKey" "a@x.com" none)) (some false)) ∧
    (principal_from_request
      (ReqExts.mk (some (PrincipalInner.mk "Oidc" "a@x.com" none)) (some false))
      "Oidc").1 = Except.ok (PrincipalInner.mk "Oidc" "a@x.com" none) ∧
    (principal_from_request
      (ReqExts.mk (some (PrincipalInner.mk "Oidc" "a@x.com" none)) (some false))
      "Oidc").2.ptaken = some true := by
  refine ⟨?_, ?_, ?_, ?_⟩
  · exact (C5_principal_extraction (ReqExts.mk none none) "Oidc").1 rfl
  · exact (C5_principal_extraction
      (ReqExts.mk (some (PrincipalInner.mk "ApiKey" "a@x.com" none)) (some false))
      "Oidc").2.1 (PrincipalInner.mk "ApiKey" "a@x.com" none) rfl (by decide)
  · exact ((C5_principal_extraction
      (ReqExts.mk (some (PrincipalInner.mk "Oidc" "a@x.com" none)) (some false))
      "Oidc").2.2 (PrincipalInner.mk "Oidc" "a@x.com" none) rfl rfl).1
  · exact ((C5_principal_extraction
      (ReqExts.mk (some (PrincipalInner.mk "Oidc" "a@x.com" none)) (some false))
      "Oidc").2.2 (PrincipalInner.mk "Oidc" "a@x.com" none) rfl rfl).2 false rfl

/-- A `get()` on an accessor that already caches a local handle is a no-op:
any number of further calls performs no store or database operation. -/
theorem Switcharoo.getTrace_cached (n : Nat) (sw : Switcharoo) (t : DbTxn)
    (h : sw.local? = some t) : sw.getTrace n = (some sw, []) := by
  induction n with
  | zero => rfl
  | succ n ih =>
    have hg : sw.get = (some (t, sw), []) := by
      simp [Switcharoo.get, h]
    simp [Switcharoo.getTrace, hg, ih]

/-- Over any run of `get()` calls on one accessor instance, no transaction is
begun and the shared slot is taken from at most once. -/
theorem Switcharoo.getTrace_counts (sw : Switcharoo) (n : Nat) :
    ((sw.getTrace n).2.count TxnOp.beginWrite = 0) ∧
    ((sw.getTrace n).2.count TxnOp.takeShared ≤ 1) := by
  cases n with
  | zero => simp [Switcharoo.getTrace]
  | succ n =>
    cases hl : sw.local? with
    | some t =>
      rw [Switcharoo.getTrace_cached (n + 1) sw t hl]
      simp
    | none =>
      cases hs : sw.shared with
      | none =>
        have hg : sw.get = (none, [TxnOp.takeShared]) := by
          simp [Switcharoo.get, hl, hs]
        simp [Switcharoo.getTrace, hg]
      | some txn =>
        have hg : sw.get =
            (some (txn, Switcharoo.mk none (some txn)), [TxnOp.takeShared]) := by
          simp [Switcharoo.get, hl, hs]
        have hrest :=
          Switcharoo.getTrace_cached n (Switcharoo.mk none (some txn)) txn rfl
        simp [Switcharoo.getTrace, hg, hrest]

/-- Claim C6 — For every accessor instance (extraction followed by any number
of `get()` calls within one request), at most one transaction is begun, and
every `get()` after the first returns the locally cached handle performing no
operation on the shared store (the shared slot is taken from at most once
over the whole run). -/
theorem C6_at_most_one_begin (newtx : Except String DbTxn)
    (cont : Option DbTxn) (n : Nat) :
    ((writeTxnLifecycleTrace newtx cont n).count TxnOp.beginWrite ≤ 1) ∧
    ((writeTxnLifecycleTrace newtx cont n).count TxnOp.takeShared ≤ 1) ∧
    (∀ (sw sw' : Switcharoo) (t : DbTxn) (ops : List TxnOp),
      sw.get = (some (t, sw'), ops) → sw'.get = (some (t, sw'), [])) := by
  refine ⟨?_, ?_, ?_⟩
  · cases newtx with
    | error e =>
      simp [writeTxnLifecycleTrace, WriteTxn.from_request]
    | ok txn =>
      have h := Switcharoo.getTrace_counts (Switcharoo.mk (some txn) none) n
      have hc : List.count TxnOp.beginWrite
          [TxnOp.beginWrite, TxnOp.putShared] = 1 := by decide
      simp only [writeTxnLifecycleTrace, WriteTxn.from_request, Switcharoo.put,
        List.count_append]
      omega
  · cases newtx with
    | error e =>
      simp [writeTxnLifecycleTrace, WriteTxn.from_request]
    | ok txn =>
      have h := Switcharoo.getTrace_counts (Switcharoo.mk (some txn) none) n
      have hc : List.count TxnOp.takeShared
          [TxnOp.beginWrite, TxnOp.putShared] = 0 := by decide
      simp only [writeTxnLifecycleTrace, WriteTxn.from_request, Switcharoo.put,
        List.count_append]
      omega
  · intro sw sw' t ops h
    cases hl : sw.local? with
    | some t0 =>
      have hg : sw.get = (some (t0, sw), []) := by
        simp [Switcharoo.get, hl]
      rw [hg] at h
      simp only [Prod.mk.injEq, Option.some.injEq] at h
      obtain ⟨⟨ht, hsw⟩, hops⟩ := h
      subst hsw
      subst ht
      exact hg
    | none =>
      cases hs : sw.shared with
      | none =>
        have hg : sw.get = (none, [TxnOp.takeShared]) := by
          simp [Switcharoo.get, hl, hs]
        rw [hg] at h
        simp at h
      | some txn =>
        have hg : sw.get =
            (some (txn, Switcharoo.mk none (some txn)), [TxnOp.takeShared]) := by
          simp [Switcharoo.get, hl, hs]
        rw [hg] at h
        simp only [Prod.mk.injEq, Option.some.injEq] at h
        obtain ⟨⟨ht, hsw⟩, hops⟩ := h
        subst hsw
        subst ht
        rfl

/-- Witness for C6 at a concrete input: a fresh accessor over an empty
container, followed by three `get()` calls, begins at most one transaction;
and a second `get()` after a successful first one is a no-op returning the
same handle. -/
theorem C6_at_most_one_begin_witness :
    ((writeTxnLifecycleTrace (Except.ok (DbTxn.mk (Except.ok ()) (Except.ok ())))
        none 3).count TxnOp.beginWrite ≤ 1) ∧
    Switcharoo.get
      (Switcharoo.mk none (some (DbTxn.mk (Except.ok ()) (Except.ok ())))) =
      (some (DbTxn.mk (Except.ok ()) (Except.ok ()),
        Switcharoo.mk none (some (DbTxn.mk (Except.ok ()) (Except.ok ())))), []) :=
  ⟨(C6_at_most_one_begin (Except.ok (DbTxn.mk (Except.ok ()) (Except.ok ())))
      none 3).1,
   (C6_at_most_one_begin (Except.ok (DbTxn.mk (Except.ok ()) (Except.ok ())))
      none 3).2.2
     (Switcharoo.mk (some (DbTxn.mk (Except.ok ()) (Except.ok ()))) none)
     (Switcharoo.mk none (some (DbTxn.mk (Except.ok ()) (Except.ok ()))))
     (DbTxn.mk (Except.ok ()) (Except.ok ())) [TxnOp.takeShared] rfl⟩

/-- Claim C7 counterexample — the claim says that when the shared slot is empty
and no local handle is cached, `get()` asks the database layer to begin a new
write transaction and returns a live handle. In the code, `get()` does
`self.shared.replace(None).unwrap()`: on an empty slot it panics (`none`
here) and never issues a begin. -/
theorem C7_get_begins_counterexample :
    ((Switcharoo.mk none none).get.1 = none) ∧
    ((Switcharoo.mk none none).get.2.count TxnOp.beginWrite = 0) :=
  ⟨rfl, rfl⟩

/-- Claim C7 (amended) — The write transaction is begun eagerly by
`WriteTxn::from_request`, not lazily by `get()`: `from_request` always asks
the database layer for a new write transaction (exactly one begin) and puts
the handle into the shared store; the first `get()` call then takes that
handle out of the shared store, caches it locally, and returns it. If the
shared slot is empty at a first `get()` (no local handle cached), `get()`
panics instead of beginning a transaction. -/
theorem C7_eager_begin_amended (txn : DbTxn) (cont : Option DbTxn)
    (sw : Switcharoo)
    (hsw : (WriteTxn.from_request (Except.ok txn) cont).1 = Except.ok sw) :
    ((WriteTxn.from_request (Except.ok txn) cont).2.count TxnOp.beginWrite = 1) ∧
    sw.get = (some (txn, Switcharoo.mk none (some txn)), [TxnOp.takeShared]) ∧
    (∀ sw0 : Switcharoo, sw0.local? = none → sw0.shared = none →
      sw0.get.1 = none ∧ sw0.get.2.count TxnOp.beginWrite = 0) := by
  have hsw' : sw = Switcharoo.mk (some txn) none := by
    have hfr : (WriteTxn.from_request (Except.ok txn) cont).1 =
        Except.ok (Switcharoo.mk (some txn) none) := rfl
    rw [hfr] at hsw
    exact (Except.ok.inj hsw).symm
  subst hsw'
  refine ⟨rfl, rfl, ?_⟩
  intro sw0 hl hs
  have hg : sw0.get = (none, [TxnOp.takeShared]) := by
    simp [Switcharoo.get, hl, hs]
  rw [hg]
  exact ⟨rfl, rfl⟩

/-- Witness for C7 (amended) at a concrete input: extraction begins exactly
one transaction, the first `get()` takes it out of the shared store, and a
`get()` on a fully empty accessor panics without beginning anything. -/
theorem C7_eager_begin_amended_witness :
    ((WriteTxn.from_request (Except.ok (DbTxn.mk (Except.ok ()) (Except.ok ())))
        none).2.count TxnOp.beginWrite = 1) ∧
    ((Switcharoo.mk none none).get.1 = none ∧
      (Switcharoo.mk none none).get.2.count TxnOp.beginWrite = 0) := by
  have h := C7_eager_begin_amended (DbTxn.mk (Except.ok ()) (Except.ok ())) none
    (Switcharoo.mk (some (DbTxn.mk (Except.ok ()) (Except.ok ()))) none) rfl
  exact ⟨h.1, h.2.2 (Switcharoo.mk none none) rfl rfl⟩

/-- Claim C8 counterexample — the claim says that on a route class where
authentication is not required, a failing session lookup is not propagated
and the request proceeds downstream. Concretely: `required = false`, a
credential is present, and `find_session` fails — the middleware propagates
the lookup failure (via the `?` on `verify_auth`) and never invokes
downstream. -/
theorem C8_not_required_counterexample :
    ((authCall (fun _ => 100)
      (AuthEnv.mk true false (some (Authentication.mk "Oidc" "d" "t")) 1000
        (Except.ok ()) (Except.error "session lookup failed") (Except.ok ())
        (Except.ok ()) (Except.ok ()) (Except.error "x"))
      (fun e => Except.ok (200, e))).result =
      Except.error (AnyErr.anyhow "session lookup failed")) ∧
    ((authCall (fun _ => 100)
      (AuthEnv.mk true false (some (Authentication.mk "Oidc" "d" "t")) 1000
        (Except.ok ()) (Except.error "session lookup failed") (Except.ok ())
        (Except.ok ()) (Except.ok ()) (Except.error "x"))
      (fun e => Except.ok (200, e))).downstreamInvoked = false) :=
  ⟨rfl, rfl⟩

/-- Claim C8 (amended) — If no credential is present and authentication is not
required, the request proceeds to the downstream stage without a principal
attached. But if a credential is present and the session lookup fails, the
failure is propagated as the request's error — even when authentication is
not required — and downstream is never invoked. -/
theorem C8_not_required_amended (lifetime : String → Int) (env : AuthEnv)
    (service : ReqExts → Except AnyErr (Nat × ReqExts))
    (hobjs : env.objs = true) :
    (env.auth = none → env.required = false →
      ∀ (s : Nat) (exts' : ReqExts),
        service (ReqExts.mk none none) = Except.ok (s, exts') →
        exts'.ptaken = none →
        (authCall lifetime env service).result = Except.ok s ∧
        (authCall lifetime env service).downstreamInvoked = true) ∧
    (∀ a e, env.auth = some a → env.newtxRes = Except.ok () →
      env.findRes = Except.error e →
      (authCall lifetime env service).result = Except.error (AnyErr.anyhow e) ∧
      (authCall lifetime env service).downstreamInvoked = false) := by
  constructor
  · intro hauth hreq s exts' hsvc hflag
    have hve : verify_auth lifetime env = (Except.ok none, []) := by
      simp [verify_auth, hauth]
    constructor <;> simp [authCall, hobjs, hve, hreq, hsvc, hflag]
  · intro a e hauth hnew hfind
    have hve : verify_auth lifetime env = (Except.error (AnyErr.anyhow e), []) := by
      simp [verify_auth, hauth, hnew, hfind]
    constructor <;> simp [authCall, hobjs, hve]

/-- Witness for C8 (amended) at concrete inputs: a credential-free request on
a not-required route reaches the handler (status 200); a request with a
credential whose lookup fails is failed with the lookup error and downstream
is not invoked. -/
theorem C8_not_required_amended_witness :
    ((authCall (fun _ => 100)
      (AuthEnv.mk true false none 1000 (Except.ok ())
        (Except.error "nope") (Except.ok ()) (Except.ok ()) (Except.ok ())
        (Except.error "x"))
      (fun e => Except.ok (200, e))).result = Except.ok 200) ∧
    ((authCall (fun _ => 100)
      (AuthEnv.mk true false (some (Authentication.mk "Oidc" "d" "t")) 1000
        (Except.ok ()) (Except.error "nope") (Except.ok ()) (Except.ok ())
        (Except.ok ()) (Except.error "x"))
      (fun e => Except.ok (200, e))).downstreamInvoked = false) :=
  ⟨((C8_not_required_amended (fun _ => 100)
      (AuthEnv.mk true false none 1000 (Except.ok ())
        (Except.error "nope") (Except.ok ()) (Except.ok ()) (Except.ok ())
        (Except.error "x"))
      (fun e => Except.ok (200, e)) rfl).1 rfl rfl 200 (ReqExts.mk none none)
      rfl rfl).1,
   ((C8_not_required_amended (fun _ => 100)
      (AuthEnv.mk true false (some (Authentication.mk "Oidc" "d" "t")) 1000
        (Except.ok ()) (Except.error "nope") (Except.ok ()) (Except.ok ())
        (Except.ok ()) (Except.error "x"))
      (fun e => Except.ok (200, e)) rfl).2
      (Authentication.mk "Oidc" "d" "t") "nope" rfl rfl rfl).2⟩

/-- Claim C9 — Whenever the finalize operation (commit or rollback) performed
by the unit-of-work middleware fails, the reported error is the distinguished
transaction-finalize error, overriding any original downstream outcome; when
finalize succeeds, the original downstream error or success propagates
unchanged. -/
theorem C9_finalize_overrides (txn : DbTxn) (res : Except AnyErr Nat) :
    (∀ e, finalizeOpResult txn res = Except.error e →
      (txnMwFinalize (some txn) res).1 =
        Except.error (AnyErr.anyhow ("SQL error on rollback/commit: " ++ e))) ∧
    (∀ u, finalizeOpResult txn res = Except.ok u →
      (txnMwFinalize (some txn) res).1 = res) := by
  rcases res with e0 | s
  · cases hr : txn.rollbackRes with
    | ok u =>
      refine ⟨?_, ?_⟩ <;> intro x hx <;>
        simp only [finalizeOpResult, hr] at hx <;>
        simp [txnMwFinalize, hr]
      exact absurd hx (by simp)
    | error te =>
      refine ⟨?_, ?_⟩ <;> intro x hx <;>
        simp only [finalizeOpResult, hr] at hx
      · injection hx with h'
        subst h'
        simp [txnMwFinalize, hr]
      · exact absurd hx (by simp)
  · cases hb : (is_server_error s || is_client_error s) with
    | false =>
      cases hc : txn.commitRes with
      | ok u =>
        refine ⟨?_, ?_⟩ <;> intro x hx <;>
          simp only [finalizeOpResult, hb, Bool.not_false, if_true, hc] at hx <;>
          simp [txnMwFinalize, hb, hc]
        exact absurd hx (by simp)
      | error te =>
        refine ⟨?_, ?_⟩ <;> intro x hx <;>
          simp only [finalizeOpResult, hb, Bool.not_false, if_true, hc] at hx
        · injection hx with h'
          subst h'
          simp [txnMwFinalize, hb, hc]
        · exact absurd hx (by simp)
    | true =>
      cases hr : txn.rollbackRes with
      | ok u =>
        refine ⟨?_, ?_⟩ <;> intro x hx <;>
          simp only [finalizeOpResult, hb, Bool.not_true, Bool.false_eq_true,
            if_false, hr] at hx <;>
          simp [txnMwFinalize, hb, hr]
        exact absurd hx (by simp)
      | error te =>
        refine ⟨?_, ?_⟩ <;> intro x hx <;>
          simp only [finalizeOpResult, hb, Bool.not_true, Bool.false_eq_true,
            if_false, hr] at hx
        · injection hx with h'
          subst h'
          simp [txnMwFinalize, hb, hr]
        · exact absurd hx (by simp)

/-- Witness for C9 at concrete inputs: a commit failure on a 200 response is
reported as the finalize error; a successful rollback on a downstream error
propagates that original error unchanged. -/
theorem C9_finalize_overrides_witness :
    ((txnMwFinalize (some (DbTxn.mk (Except.error "boom") (Except.ok ())))
        (Except.ok 200)).1 =
      Except.error (AnyErr.anyhow ("SQL error on rollback/commit: " ++ "boom"))) ∧
    ((txnMwFinalize (some (DbTxn.mk (Except.ok ()) (Except.ok ())))
        (Except.error (AnyErr.api ApiError.InvalidInput))).1 =
      Except.error (AnyErr.api ApiError.InvalidInput)) :=
  ⟨(C9_finalize_overrides (DbTxn.mk (Except.error "boom") (Except.ok ()))
      (Except.ok 200)).1 "boom" rfl,
   (C9_finalize_overrides (DbTxn.mk (Except.ok ()) (Except.ok ()))
      (Except.error (AnyErr.api ApiError.InvalidInput))).2 () rfl⟩

/-- Claim C10 — The consumed-flag check runs only when the downstream service
returns a successful response: if downstream returns an error while a
principal was attached and never consumed, that error is propagated
immediately (via the `?` on `service.call`) and the "principal not
extracted" failure is never raised. -/
theorem C10_check_only_on_success (lifetime : String → Int) (env : AuthEnv)
    (service : ReqExts → Except AnyErr (Nat × ReqExts)) (p : PrincipalInner)
    (hobjs : env.objs = true)
    (hp : (verify_auth lifetime env).1 = Except.ok (some p))
    (e : AnyErr)
    (hsvc : service (ReqExts.mk (some p) (some false)) = Except.error e) :
    (authCall lifetime env service).result = Except.error e ∧
    (authCall lifetime env service).downstreamInvoked = true := by
  rcases hve : verify_auth lifetime env with ⟨r, ops⟩
  rw [hve] at hp
  simp only at hp
  subst hp
  constructor <;> simp [authCall, hobjs, hve, hsvc]

/-- Witness for C10 at a concrete input: a valid session attaches a
principal; the downstream service fails with `InvalidInput` without consuming
it; the middleware reports exactly that downstream error. -/
theorem C10_check_only_on_success_witness :
    (authCall (fun _ => 100)
      (AuthEnv.mk true true (some (Authentication.mk "Oidc" "d" "t")) 1000
        (Except.ok ()) (Except.ok (Session.mk "c" "Oidc" 2000 none))
        (Except.ok ()) (Except.ok ()) (Except.ok ())
        (Except.ok (PrincipalInner.mk "Oidc" "a@x.com" none)))
      (fun _ => Except.error (AnyErr.api ApiError.InvalidInput))).result =
      Except.error (AnyErr.api ApiError.InvalidInput) :=
  (C10_check_only_on_success (fun _ => 100)
    (AuthEnv.mk true true (some (Authentication.mk "Oidc" "d" "t")) 1000
      (Except.ok ()) (Except.ok (Session.mk "c" "Oidc" 2000 none))
      (Except.ok ()) (Except.ok ()) (Except.ok ())
      (Except.ok (PrincipalInner.mk "Oidc" "a@x.com" none)))
    (fun _ => Except.error (AnyErr.api ApiError.InvalidInput))
    (PrincipalInner.mk "Oidc" "a@x.com" none) rfl rfl
    (AnyErr.api ApiError.InvalidInput) rfl).1

end Bear
